import Mathlib

/-!
Shallow embedding of `plugins/modules/vyos_api_command.py`: the command
allow-list check `parse_commands` and the conditional poll-and-retry loop of
`main`.  The two external collaborators are not part of the source tree and
are modelled from the spec where marked: the transport call
`run_api_commands` (its result is abstracted as a `DispatchResult`-valued
function) and the `Conditional` expression compiler/evaluator from
ansible.netcommon (`compileCondition`, `evaluate`).
-/

/-- A response from one dispatch of the command batch: the ordered list of
result strings, one per command. -/
abbrev Response := List String

/-- The source constant `API_COMMANDS = ['show', 'generate', 'set', 'delete',
'comment']`. -/
def API_COMMANDS : List String := ["show", "generate", "set", "delete", "comment"]

/-- Is the first character list a prefix of the second? -/
def charPre : List Char → List Char → Bool
  | [], _ => true
  | _ :: _, [] => false
  | a :: as, b :: bs => a == b && charPre as bs

/-- The test `s.startswith(pre)` on the underlying character lists. -/
def strStartsWith (s pre : String) : Bool :=
  charPre pre.data s.data

/-- The test `s.endswith(suf)` on the underlying character lists. -/
def strEndsWith (s suf : String) : Bool :=
  charPre suf.data.reverse s.data.reverse

/-- Split a string at every occurrence of the separator character. -/
def splitOnCharAux (sep : Char) : List Char → List Char → List String
  | [], acc => [String.mk acc.reverse]
  | c :: rest, acc =>
    if c == sep then String.mk acc.reverse :: splitOnCharAux sep rest []
    else splitOnCharAux sep rest (c :: acc)

/-- Split a string at every occurrence of the separator character. -/
def splitOnChar (sep : Char) (s : String) : List String :=
  splitOnCharAux sep s.data []

/-- The numeric value of a decimal digit character. -/
def digitVal (c : Char) : Option Nat :=
  if c == '0' then some 0
  else if c == '1' then some 1
  else if c == '2' then some 2
  else if c == '3' then some 3
  else if c == '4' then some 4
  else if c == '5' then some 5
  else if c == '6' then some 6
  else if c == '7' then some 7
  else if c == '8' then some 8
  else if c == '9' then some 9
  else none

/-- Accumulate the decimal value of a digit-character list. -/
def natFromCharsAux : List Char → Nat → Option Nat
  | [], acc => some acc
  | c :: rest, acc =>
    match digitVal c with
    | some d => natFromCharsAux rest (acc * 10 + d)
    | none => none

/-- Parse a non-empty all-digit string as a natural number. -/
def strToNat (s : String) : Option Nat :=
  match s.data with
  | [] => none
  | cs => natFromCharsAux cs 0

/-- Parse an optionally negated decimal string as an integer. -/
def strToInt (s : String) : Option Int :=
  match s.data with
  | '-' :: rest =>
    if rest = [] then none
    else (natFromCharsAux rest 0).map (fun n => -(n : Int))
  | _ => (strToNat s).map (fun n => (n : Int))

/-- The test `item.startswith(tuple(API_COMMANDS))` from `parse_commands`. -/
def allowedCommand (item : String) : Bool :=
  API_COMMANDS.any (fun p => strStartsWith item p)

/-- The source function `parse_commands(module, warnings)`: walking the
command list in order, `module.fail_json` on the first command that does not
start with an allowed verb (modelled as `Except.error` carrying the message);
in check mode, every surviving command that does not start with "show" is
removed from the batch and a warning is appended.  Returns the remaining
batch together with the warnings. -/
def parse_commands (check_mode : Bool) : List String → Except String (List String × List String)
  | [] => Except.ok ([], [])
  | item :: rest =>
    if allowedCommand item = false then
      Except.error ("\x27" ++ item ++ "\x27 - is not an allowed command")
    else
      match parse_commands check_mode rest with
      | Except.error msg => Except.error msg
      | Except.ok (cmds, warns) =>
        if check_mode && !(strStartsWith item "show") then
          Except.ok (cmds,
            ("Only show commands are supported when using check mode, not executing " ++ item)
              :: warns)
        else
          Except.ok (item :: cmds, warns)

/-- Operand selector of a compiled conditional.  Modelled from the spec: the
operand references either the whole response set or an indexed element. -/
inductive Operand where
  | whole : Operand
  | idx : Nat → Operand
  deriving DecidableEq, Repr

/-- Comparison operator of a compiled conditional.  Modelled from the spec:
equality, inequality, containment and the four numeric comparisons. -/
inductive CmpOp where
  | eq : CmpOp
  | neq : CmpOp
  | contains : CmpOp
  | lt : CmpOp
  | le : CmpOp
  | gt : CmpOp
  | ge : CmpOp
  deriving DecidableEq, Repr

/-- Modelled from the spec: a `CompiledCondition` is the parsed form of a raw
`wait_for` expression — operand selector, operator and literal — together
with the original raw string (the `raw` attribute used for
`failed_conditions`). -/
structure CompiledCondition where
  raw : String
  operand : Operand
  op : CmpOp
  literal : String
  deriving DecidableEq, Repr

/-- Modelled from the spec: operand parsing for `compile` — the token
"result" denotes the whole response, "result[i]" its i-th element; anything
else is not a valid operand selector. -/
def parseOperand (s : String) : Option Operand :=
  if s = "result" then some Operand.whole
  else if strStartsWith s "result[" && strEndsWith s "]" then
    match strToNat ((s.drop 7).dropRight 1) with
    | some i => some (Operand.idx i)
    | none => none
  else none

/-- Modelled from the spec: the closed set of operator tokens. -/
def parseCmpOp (s : String) : Option CmpOp :=
  if s = "eq" || s = "==" then some CmpOp.eq
  else if s = "neq" || s = "!=" then some CmpOp.neq
  else if s = "contains" then some CmpOp.contains
  else if s = "<" then some CmpOp.lt
  else if s = "<=" then some CmpOp.le
  else if s = ">" then some CmpOp.gt
  else if s = ">=" then some CmpOp.ge
  else none

/-- Strip one layer of matching single or double quotes from a literal
token. -/
def stripQuote (s : String) : String :=
  if 2 ≤ s.length then
    if (strStartsWith s "\x27" && strEndsWith s "\x27")
        || (strStartsWith s "\"" && strEndsWith s "\"") then
      (s.drop 1).dropRight 1
    else s
  else s

/-- Modelled from the spec: `ConditionEvaluator.compile` parses a raw
expression `<operand> <operator> <literal>` once; an unrecognised operand
selector or operator token is a MalformedExpressionError (in the source this
surfaces as the AttributeError caught around
`[Conditional(c) for c in wait_for]` and turned into `module.fail_json`). -/
def compileCondition (expr : String) : Except String CompiledCondition :=
  match splitOnChar ' ' expr with
  | opnd :: oper :: rest =>
    if rest = [] then Except.error ("malformed expression: " ++ expr)
    else
      match parseOperand opnd, parseCmpOp oper with
      | some o, some p =>
        Except.ok { raw := expr, operand := o, op := p,
                    literal := stripQuote (String.intercalate " " rest) }
      | _, _ => Except.error ("malformed expression: " ++ expr)
  | _ => Except.error ("malformed expression: " ++ expr)

/-- Helper for the containment operator: does the needle occur as a
contiguous run inside the haystack character list? -/
def containsAux (needle : List Char) : List Char → Bool
  | [] => needle.isEmpty
  | c :: rest => charPre needle (c :: rest) || containsAux needle rest

/-- Substring test on the underlying character lists (the `contains`
operator). -/
def strContains (hay needle : String) : Bool :=
  containsAux needle.data hay.data

/-- Numeric comparison with coercion: both sides are coerced to integers and
the comparison fails (returns false) if either coercion fails, rather than
raising — modelled from the spec. -/
def numCmp (f : Int → Int → Bool) (v lit : String) : Bool :=
  match strToInt v, strToInt lit with
  | some a, some b => f a b
  | _, _ => false

/-- Apply a comparison operator to the resolved operand value and the
literal. -/
def applyCmpOp : CmpOp → String → String → Bool
  | CmpOp.eq, v, lit => v == lit
  | CmpOp.neq, v, lit => !(v == lit)
  | CmpOp.contains, v, lit => strContains v lit
  | CmpOp.lt, v, lit => numCmp (fun a b => decide (a < b)) v lit
  | CmpOp.le, v, lit => numCmp (fun a b => decide (a ≤ b)) v lit
  | CmpOp.gt, v, lit => numCmp (fun a b => decide (b < a)) v lit
  | CmpOp.ge, v, lit => numCmp (fun a b => decide (b ≤ a)) v lit

/-- Evaluation error of a single condition. -/
inductive EvalError where
  | indexOutOfRange : Nat → EvalError
  deriving DecidableEq, Repr

/-- Modelled from the spec: `ConditionEvaluator.evaluate` resolves the
operand — the whole response in joined representation, or the i-th element,
failing with IndexOutOfRangeError when i is out of bounds — and applies the
operator. -/
def evaluate (c : CompiledCondition) (resp : Response) : Except EvalError Bool :=
  match c.operand with
  | Operand.whole => Except.ok (applyCmpOp c.op (String.intercalate "\n" resp) c.literal)
  | Operand.idx i =>
    match resp[i]? with
    | none => Except.error (EvalError.indexOutOfRange i)
    | some v => Except.ok (applyCmpOp c.op v c.literal)

/-- The call `item(responses)` as seen by the poll loop: an
IndexOutOfRangeError is downgraded to "condition not satisfied this attempt"
(modelled from the spec), every other outcome is the boolean verdict. -/
def evalCond (c : CompiledCondition) (resp : Response) : Bool :=
  match evaluate c resp with
  | Except.ok b => b
  | Except.error _ => false

/-- The comprehension `conditionals = [Conditional(c) for c in wait_for]`:
left to right, the first compilation failure propagates (and is caught by the
`except AttributeError` branch, which calls `module.fail_json`). -/
def compileAll : List String → Except String (List CompiledCondition)
  | [] => Except.ok []
  | e :: rest =>
    match compileCondition e with
    | Except.error msg => Except.error msg
    | Except.ok c =>
      match compileAll rest with
      | Except.error msg => Except.error msg
      | Except.ok cs => Except.ok (c :: cs)

/-- Result of one `run_api_commands(module, commands, direct_fail)` call.
Modelled from the spec: the transport collaborator either returns the batch
response or fails with a TransportError, which under the module default
`direct_fail = False` aborts the poll at once. -/
inductive DispatchResult where
  | ok : Response → DispatchResult
  | transportError : String → DispatchResult
  deriving DecidableEq, Repr

/-- One evaluation pass with `match == "all"`: the source iterates over a
copy, `for item in list(conditionals)`, and removes every conditional whose
call returns true — conditional objects are distinct, so the surviving list
is exactly the filter of the unsatisfied ones. -/
def evalPassAll (ev : CompiledCondition → Bool) (conds : List CompiledCondition) :
    List CompiledCondition :=
  conds.filter (fun c => !(ev c))

/-- Does the ordered scan `for item in list(conditionals)` hit a satisfied
conditional? -/
def anyTrue (ev : CompiledCondition → Bool) : List CompiledCondition → Bool
  | [] => false
  | c :: rest => ev c || anyTrue ev rest

/-- One evaluation pass with `match == "any"`: on the first satisfied
conditional the source sets `conditionals = list()` and breaks out — the
whole pending set is cleared and the remaining conditionals are not
evaluated in that attempt; when no conditional is satisfied nothing is
removed. -/
def evalPassAny (ev : CompiledCondition → Bool)
    (conds : List CompiledCondition) : List CompiledCondition :=
  if anyTrue ev conds then [] else conds

/-- Observable state of the retry loop: how many `run_api_commands` calls and
`time.sleep(interval)` calls have happened, the conditionals still pending,
the latest value of the `responses` variable (none while unbound), and the
fatal transport error, if one aborted the loop. -/
structure PollState where
  dispatches : Nat
  sleeps : Nat
  pending : List CompiledCondition
  lastResponses : Option Response
  fatal : Option String
  deriving DecidableEq, Repr

/-- State on entry to the retry loop: nothing dispatched, nothing slept, all
compiled conditionals pending, `responses` still unbound. -/
def initState (conds : List CompiledCondition) : PollState :=
  { dispatches := 0, sleeps := 0, pending := conds, lastResponses := none, fatal := none }

/-- The inner `for item in list(conditionals):` pass of one attempt,
selecting the evaluation policy from the `match` parameter. -/
def attemptPending (matchAny : Bool) (resp : Response)
    (conds : List CompiledCondition) : List CompiledCondition :=
  if matchAny then evalPassAny (fun c => evalCond c resp) conds
  else evalPassAll (fun c => evalCond c resp) conds

/-- State after an attempt whose `run_api_commands` call failed: the loop is
aborted on the spot (the `direct_fail` default, modelled from the spec),
nothing else changes. -/
def errState (s : PollState) (r : String) : PollState :=
  { s with dispatches := s.dispatches + 1, fatal := some r }

/-- State after an attempt that left no conditional pending: the `break`
before `time.sleep` — one more dispatch, no extra sleep. -/
def breakState (s : PollState) (resp : Response)
    (pending : List CompiledCondition) : PollState :=
  { dispatches := s.dispatches + 1, sleeps := s.sleeps, pending := pending,
    lastResponses := some resp, fatal := none }

/-- State entering the next iteration after an attempt that left conditionals
pending: one more dispatch and the `time.sleep(interval)` at the end of the
iteration body. -/
def nextState (s : PollState) (resp : Response)
    (pending : List CompiledCondition) : PollState :=
  { dispatches := s.dispatches + 1, sleeps := s.sleeps + 1, pending := pending,
    lastResponses := some resp, fatal := none }

/-- The retry loop `for item in range(retries):` of `main`.  The first
argument of the recursion is the number of remaining iterations; `dispatch k`
is the result of the `run_api_commands` call of the (k+1)-st attempt.  A
transport error ends the loop at once (the `direct_fail` default, modelled
from the spec); otherwise the pending conditionals are evaluated against the
fresh response, the loop breaks when none remain, and `time.sleep(interval)`
runs at the end of every iteration that does not break — including the last
one. -/
def pollLoop (matchAny : Bool) (dispatch : Nat → DispatchResult) :
    Nat → PollState → PollState
  | 0, s => s
  | n + 1, s =>
    match dispatch s.dispatches with
    | DispatchResult.transportError r => errState s r
    | DispatchResult.ok resp =>
      if (attemptPending matchAny resp s.pending).isEmpty then
        breakState s resp (attemptPending matchAny resp s.pending)
      else
        pollLoop matchAny dispatch n
          (nextState s resp (attemptPending matchAny resp s.pending))

/-- The helper `to_lines(responses)` from ansible.netcommon utils, modelled
from the spec: splits each response element into display lines. -/
def to_lines (responses : Response) : List (List String) :=
  responses.map (fun r => splitOnChar '\n' r)

/-- The module parameters consumed by the poll engine (the `match` parameter
is renamed `matchPolicy`, `match` being a keyword). -/
structure ModuleParams where
  commands : List String
  wait_for : List String
  matchPolicy : String
  retries : Nat
  interval : Nat
  check_mode : Bool
  deriving DecidableEq, Repr

/-- Terminal outcome of one module run: `failed` is a `module.fail_json` with
a message only (command not allowed, malformed expression, transport error);
`failedConditions` is the `fail_json` carrying `failed_conditions`; `success`
is `module.exit_json` with stdout, stdout_lines and warnings; `nameError` is
the uncaught Python NameError reached when `responses` is read while still
unbound (the loop body never ran). -/
inductive ModuleOutcome where
  | failed : String → ModuleOutcome
  | failedConditions : String → List String → ModuleOutcome
  | success : Response → List (List String) → List String → ModuleOutcome
  | nameError : ModuleOutcome
  deriving DecidableEq, Repr

/-- Is the outcome a plain `fail_json` with only a message? -/
def isFailed : ModuleOutcome → Bool
  | ModuleOutcome.failed _ => true
  | _ => false

/-- Is the outcome the conditions-unmet failure? -/
def isFailedConditions : ModuleOutcome → Bool
  | ModuleOutcome.failedConditions _ _ => true
  | _ => false

/-- Is the outcome a successful `exit_json`? -/
def isSuccess : ModuleOutcome → Bool
  | ModuleOutcome.success _ _ _ => true
  | _ => false

/-- The observable effects of one module run: the outcome, the number of
dispatch and sleep calls, the conditionals still pending at the end, and the
command batch handed to the transport (`none` when no dispatch
happened). -/
structure ModuleRun where
  outcome : ModuleOutcome
  dispatches : Nat
  sleeps : Nat
  pending : List CompiledCondition
  batch : Option (List String)
  deriving DecidableEq, Repr

/-- The tail of `main` after the loop: if a transport error aborted, the
module failed with its message; otherwise `if conditionals:` reports the raw
strings of the still-pending conditionals via `fail_json`; otherwise the
module reads `responses` — a NameError if the loop never ran — and exits
successfully with stdout and stdout_lines. -/
def finishRun (warnings : List String) (commands : List String) (s : PollState) : ModuleRun :=
  let batch := if s.dispatches = 0 then none else some commands
  match s.fatal with
  | some r =>
    { outcome := ModuleOutcome.failed r, dispatches := s.dispatches, sleeps := s.sleeps,
      pending := s.pending, batch := batch }
  | none =>
    if s.pending.isEmpty then
      match s.lastResponses with
      | some responses =>
        { outcome := ModuleOutcome.success responses (to_lines responses) warnings,
          dispatches := s.dispatches, sleeps := s.sleeps, pending := s.pending, batch := batch }
      | none =>
        { outcome := ModuleOutcome.nameError, dispatches := s.dispatches, sleeps := s.sleeps,
          pending := s.pending, batch := batch }
    else
      { outcome := ModuleOutcome.failedConditions
          "One or more conditional statements have not been satisfied"
          (s.pending.map (fun c => c.raw)),
        dispatches := s.dispatches, sleeps := s.sleeps, pending := s.pending, batch := batch }

/-- The source `main()` (renamed, `main` being reserved in Lean), with the transport abstracted: `dispatch cmds k` is
what `run_api_commands(module, commands, direct_fail)` returns on the
(k+1)-st attempt for batch `cmds`.  Commands are parsed first (failing on a
disallowed verb), then the `wait_for` expressions are compiled (failing on a
malformed one before any dispatch), then the retry loop runs, and the result
is shaped by `finishRun`. -/
def mainRun (p : ModuleParams) (dispatch : List String → Nat → DispatchResult) : ModuleRun :=
  match parse_commands p.check_mode p.commands with
  | Except.error msg =>
    { outcome := ModuleOutcome.failed msg, dispatches := 0, sleeps := 0,
      pending := [], batch := none }
  | Except.ok (commands, warnings) =>
    match compileAll p.wait_for with
    | Except.error msg =>
      { outcome := ModuleOutcome.failed msg, dispatches := 0, sleeps := 0,
        pending := [], batch := none }
    | Except.ok conditionals =>
      finishRun warnings commands
        (pollLoop (p.matchPolicy == "any") (dispatch commands) p.retries
          (initState conditionals))

/-- Transport stub: every attempt returns the single response "nope". -/
def dNope : List String → Nat → DispatchResult := fun _ _ => DispatchResult.ok ["nope"]

/-- Transport stub: every attempt returns the two-element response
["a", "b"]. -/
def dPair : List String → Nat → DispatchResult := fun _ _ => DispatchResult.ok ["a", "b"]

/-- Poll-level dispatch stub: the first attempt satisfies `condA`, the second
satisfies `condB`. -/
def dSeq : Nat → DispatchResult :=
  fun k => if k = 0 then DispatchResult.ok ["a", "x"] else DispatchResult.ok ["y", "b"]

/-- Poll-level dispatch stub: every attempt fails with a transport error. -/
def dErr : Nat → DispatchResult := fun _ => DispatchResult.transportError "connection refused"

/-- Parameter fixture: one never-matching condition and a budget of two
retries. -/
def pExhaust : ModuleParams :=
  { commands := ["show version"], wait_for := ["result[0] eq \x27x\x27"],
    matchPolicy := "all", retries := 2, interval := 1, check_mode := false }

/-- Parameter fixture: no wait_for conditions and a zero retry budget. -/
def pNoWaitZero : ModuleParams := { pExhaust with wait_for := [], retries := 0 }

/-- Parameter fixture: no wait_for conditions, ten retries. -/
def pNoWait : ModuleParams := { pExhaust with wait_for := [], retries := 10 }

/-- Parameter fixture: a condition indexing element 5 of a two-element
response, three retries. -/
def pIdx5 : ModuleParams :=
  { pExhaust with wait_for := ["result[5] eq \x27x\x27"], retries := 3 }

/-- Parameter fixture: a malformed wait_for expression. -/
def pMalformed : ModuleParams :=
  { pExhaust with wait_for := ["result[0] frobnicate \x27x\x27"] }

/-- Condition fixture: `result[0] eq "a"`. -/
def condA : CompiledCondition :=
  { raw := "result[0] eq \x27a\x27", operand := Operand.idx 0, op := CmpOp.eq, literal := "a" }

/-- Condition fixture: `result[1] eq "b"`. -/
def condB : CompiledCondition :=
  { raw := "result[1] eq \x27b\x27", operand := Operand.idx 1, op := CmpOp.eq, literal := "b" }

/-- Condition fixture: `result[0] eq "z"`. -/
def condZ : CompiledCondition :=
  { raw := "result[0] eq \x27z\x27", operand := Operand.idx 0, op := CmpOp.eq, literal := "z" }

/-- Condition fixture: the compiled form of "result[5] eq \x27x\x27". -/
def condIdx5 : CompiledCondition :=
  { raw := "result[5] eq \x27x\x27", operand := Operand.idx 5, op := CmpOp.eq, literal := "x" }

/-- Parameter fixture: a command outside the allow-list. -/
def pBad : ModuleParams := { pExhaust with commands := ["reboot now"] }

theorem evalPassAll_subset (ev : CompiledCondition → Bool)
    (conds : List CompiledCondition) : evalPassAll ev conds ⊆ conds := by
  unfold evalPassAll
  intro x hx
  exact List.mem_of_mem_filter hx

theorem evalPassAny_subset (ev : CompiledCondition → Bool)
    (conds : List CompiledCondition) : evalPassAny ev conds ⊆ conds := by
  unfold evalPassAny
  split
  · intro x hx
    exact absurd hx (List.not_mem_nil x)
  · exact fun x hx => hx

theorem attemptPending_subset (m : Bool) (resp : Response)
    (conds : List CompiledCondition) : attemptPending m resp conds ⊆ conds := by
  unfold attemptPending
  split
  · exact evalPassAny_subset _ conds
  · exact evalPassAll_subset _ conds

theorem evalPassAll_id (ev : CompiledCondition → Bool) (conds : List CompiledCondition)
    (h : ∀ c ∈ conds, ev c = false) : evalPassAll ev conds = conds := by
  unfold evalPassAll
  apply List.filter_eq_self.mpr
  intro a ha
  simp [h a ha]

theorem anyTrue_eq_false (ev : CompiledCondition → Bool) :
    ∀ conds : List CompiledCondition, (∀ c ∈ conds, ev c = false) →
      anyTrue ev conds = false
  | [], _ => rfl
  | c :: rest, h => by
    simp only [anyTrue, Bool.or_eq_false_iff]
    exact ⟨h c (List.mem_cons_self c rest),
      anyTrue_eq_false ev rest (fun a ha => h a (List.mem_cons_of_mem c ha))⟩

theorem anyTrue_of_mem (ev : CompiledCondition → Bool) {c : CompiledCondition} :
    ∀ conds : List CompiledCondition, c ∈ conds → ev c = true → anyTrue ev conds = true
  | [], h, _ => absurd h (List.not_mem_nil c)
  | a :: rest, h, hc => by
    rcases List.mem_cons.mp h with h1 | h1
    · simp [anyTrue, h1 ▸ hc]
    · simp [anyTrue, anyTrue_of_mem ev rest h1 hc]

theorem evalPassAny_id (ev : CompiledCondition → Bool) (conds : List CompiledCondition)
    (h : ∀ c ∈ conds, ev c = false) : evalPassAny ev conds = conds := by
  unfold evalPassAny
  rw [anyTrue_eq_false ev conds h]
  simp

theorem evalPassAny_clear (ev : CompiledCondition → Bool) {c : CompiledCondition}
    (conds : List CompiledCondition) (hmem : c ∈ conds) (hc : ev c = true) :
    evalPassAny ev conds = [] := by
  unfold evalPassAny
  rw [anyTrue_of_mem ev conds hmem hc]
  simp

theorem attemptPending_id (m : Bool) (resp : Response) (conds : List CompiledCondition)
    (h : ∀ c ∈ conds, evalCond c resp = false) : attemptPending m resp conds = conds := by
  unfold attemptPending
  split
  · exact evalPassAny_id _ conds h
  · exact evalPassAll_id _ conds h

@[simp] theorem errState_dispatches (s : PollState) (r : String) :
    (errState s r).dispatches = s.dispatches + 1 := rfl

@[simp] theorem errState_sleeps (s : PollState) (r : String) :
    (errState s r).sleeps = s.sleeps := rfl

@[simp] theorem errState_pending (s : PollState) (r : String) :
    (errState s r).pending = s.pending := rfl

@[simp] theorem errState_lastResponses (s : PollState) (r : String) :
    (errState s r).lastResponses = s.lastResponses := rfl

@[simp] theorem errState_fatal (s : PollState) (r : String) :
    (errState s r).fatal = some r := rfl

@[simp] theorem breakState_dispatches (s : PollState) (resp : Response)
    (p : List CompiledCondition) : (breakState s resp p).dispatches = s.dispatches + 1 := rfl

@[simp] theorem breakState_sleeps (s : PollState) (resp : Response)
    (p : List CompiledCondition) : (breakState s resp p).sleeps = s.sleeps := rfl

@[simp] theorem breakState_pending (s : PollState) (resp : Response)
    (p : List CompiledCondition) : (breakState s resp p).pending = p := rfl

@[simp] theorem breakState_lastResponses (s : PollState) (resp : Response)
    (p : List CompiledCondition) : (breakState s resp p).lastResponses = some resp := rfl

@[simp] theorem breakState_fatal (s : PollState) (resp : Response)
    (p : List CompiledCondition) : (breakState s resp p).fatal = none := rfl

@[simp] theorem nextState_dispatches (s : PollState) (resp : Response)
    (p : List CompiledCondition) : (nextState s resp p).dispatches = s.dispatches + 1 := rfl

@[simp] theorem nextState_sleeps (s : PollState) (resp : Response)
    (p : List CompiledCondition) : (nextState s resp p).sleeps = s.sleeps + 1 := rfl

@[simp] theorem nextState_pending (s : PollState) (resp : Response)
    (p : List CompiledCondition) : (nextState s resp p).pending = p := rfl

@[simp] theorem nextState_lastResponses (s : PollState) (resp : Response)
    (p : List CompiledCondition) : (nextState s resp p).lastResponses = some resp := rfl

@[simp] theorem nextState_fatal (s : PollState) (resp : Response)
    (p : List CompiledCondition) : (nextState s resp p).fatal = none := rfl

@[simp] theorem initState_dispatches (conds : List CompiledCondition) :
    (initState conds).dispatches = 0 := rfl

@[simp] theorem initState_sleeps (conds : List CompiledCondition) :
    (initState conds).sleeps = 0 := rfl

@[simp] theorem initState_pending (conds : List CompiledCondition) :
    (initState conds).pending = conds := rfl

@[simp] theorem initState_lastResponses (conds : List CompiledCondition) :
    (initState conds).lastResponses = none := rfl

@[simp] theorem initState_fatal (conds : List CompiledCondition) :
    (initState conds).fatal = none := rfl

theorem pollLoop_zero (m : Bool) (d : Nat → DispatchResult) (s : PollState) :
    pollLoop m d 0 s = s := rfl

theorem pollLoop_succ_err (m : Bool) (d : Nat → DispatchResult) (n : Nat) (s : PollState)
    (r : String) (hd : d s.dispatches = DispatchResult.transportError r) :
    pollLoop m d (n + 1) s = errState s r := by
  simp [pollLoop, hd]

theorem pollLoop_succ_break (m : Bool) (d : Nat → DispatchResult) (n : Nat) (s : PollState)
    (resp : Response) (hd : d s.dispatches = DispatchResult.ok resp)
    (hp : (attemptPending m resp s.pending).isEmpty = true) :
    pollLoop m d (n + 1) s = breakState s resp (attemptPending m resp s.pending) := by
  simp [pollLoop, hd, hp]

theorem pollLoop_succ_cont (m : Bool) (d : Nat → DispatchResult) (n : Nat) (s : PollState)
    (resp : Response) (hd : d s.dispatches = DispatchResult.ok resp)
    (hp : (attemptPending m resp s.pending).isEmpty = false) :
    pollLoop m d (n + 1) s =
      pollLoop m d n (nextState s resp (attemptPending m resp s.pending)) := by
  simp [pollLoop, hd, hp]

theorem pollLoop_dispatches_le (m : Bool) (d : Nat → DispatchResult) :
    ∀ (n : Nat) (s : PollState), (pollLoop m d n s).dispatches ≤ s.dispatches + n
  | 0, s => by rw [pollLoop_zero]; omega
  | n + 1, s => by
    cases hd : d s.dispatches with
    | transportError r =>
      rw [pollLoop_succ_err m d n s r hd]
      simp
    | ok resp =>
      cases hp : (attemptPending m resp s.pending).isEmpty with
      | true =>
        rw [pollLoop_succ_break m d n s resp hd hp]
        simp
      | false =>
        rw [pollLoop_succ_cont m d n s resp hd hp]
        have h := pollLoop_dispatches_le m d n (nextState s resp (attemptPending m resp s.pending))
        simp at h
        omega

theorem pollLoop_dispatches_ge (m : Bool) (d : Nat → DispatchResult) :
    ∀ (n : Nat) (s : PollState), s.dispatches ≤ (pollLoop m d n s).dispatches
  | 0, s => by rw [pollLoop_zero]
  | n + 1, s => by
    cases hd : d s.dispatches with
    | transportError r =>
      rw [pollLoop_succ_err m d n s r hd]
      simp
    | ok resp =>
      cases hp : (attemptPending m resp s.pending).isEmpty with
      | true =>
        rw [pollLoop_succ_break m d n s resp hd hp]
        simp
      | false =>
        rw [pollLoop_succ_cont m d n s resp hd hp]
        have h := pollLoop_dispatches_ge m d n (nextState s resp (attemptPending m resp s.pending))
        simp at h
        omega

theorem attemptPending_nil (m : Bool) (resp : Response) :
    attemptPending m resp [] = [] := by
  cases m <;> simp [attemptPending, evalPassAll, evalPassAny, anyTrue]

theorem evalPassAll_not_mem (ev : CompiledCondition → Bool) (conds : List CompiledCondition)
    (c : CompiledCondition) (hc : ev c = true) : c ∉ evalPassAll ev conds := by
  unfold evalPassAll
  intro hmem
  have h2 := (List.mem_filter.mp hmem).2
  simp [hc] at h2

theorem pollLoop_exhaust_sleeps (m : Bool) (d : Nat → DispatchResult) :
    ∀ (n : Nat) (s : PollState),
      (pollLoop m d n s).fatal = none →
      (pollLoop m d n s).pending.isEmpty = false →
      (pollLoop m d n s).sleeps + s.dispatches = (pollLoop m d n s).dispatches + s.sleeps
  | 0, s, _, _ => by rw [pollLoop_zero]; omega
  | n + 1, s, h1, h2 => by
    cases hd : d s.dispatches with
    | transportError r =>
      rw [pollLoop_succ_err m d n s r hd] at h1
      simp at h1
    | ok resp =>
      cases hp : (attemptPending m resp s.pending).isEmpty with
      | true =>
        rw [pollLoop_succ_break m d n s resp hd hp] at h2
        simp [hp] at h2
      | false =>
        rw [pollLoop_succ_cont m d n s resp hd hp] at h1 h2 ⊢
        have h3 := pollLoop_exhaust_sleeps m d n
          (nextState s resp (attemptPending m resp s.pending)) h1 h2
        simp at h3
        omega

theorem pollLoop_progress_of_cleared (m : Bool) (d : Nat → DispatchResult) :
    ∀ (n : Nat) (s : PollState),
      s.pending.isEmpty = false →
      (pollLoop m d n s).pending.isEmpty = true →
      s.dispatches < (pollLoop m d n s).dispatches
  | 0, s, h1, h2 => by
    rw [pollLoop_zero] at h2
    rw [h2] at h1
    exact Bool.noConfusion h1
  | n + 1, s, h1, h2 => by
    cases hd : d s.dispatches with
    | transportError r =>
      rw [pollLoop_succ_err m d n s r hd] at h2
      simp at h2
      rw [h2] at h1
      exact Bool.noConfusion h1
    | ok resp =>
      cases hp : (attemptPending m resp s.pending).isEmpty with
      | true =>
        rw [pollLoop_succ_break m d n s resp hd hp]
        simp only [breakState_dispatches]
        omega
      | false =>
        rw [pollLoop_succ_cont m d n s resp hd hp] at h2 ⊢
        have h3 := pollLoop_progress_of_cleared m d n
          (nextState s resp (attemptPending m resp s.pending)) (by simp [hp]) h2
        simp at h3
        omega

theorem pollLoop_success_sleeps (m : Bool) (d : Nat → DispatchResult) :
    ∀ (n : Nat) (s : PollState),
      (pollLoop m d n s).pending.isEmpty = true →
      (pollLoop m d n s).fatal = none →
      s.dispatches < (pollLoop m d n s).dispatches →
      (pollLoop m d n s).sleeps + s.dispatches + 1 = (pollLoop m d n s).dispatches + s.sleeps
  | 0, s, _, _, h3 => by rw [pollLoop_zero] at h3; omega
  | n + 1, s, h1, h2, h3 => by
    cases hd : d s.dispatches with
    | transportError r =>
      rw [pollLoop_succ_err m d n s r hd] at h2
      simp at h2
    | ok resp =>
      cases hp : (attemptPending m resp s.pending).isEmpty with
      | true =>
        rw [pollLoop_succ_break m d n s resp hd hp]
        simp only [breakState_sleeps, breakState_dispatches]
        omega
      | false =>
        rw [pollLoop_succ_cont m d n s resp hd hp] at h1 h2 ⊢
        have hprog := pollLoop_progress_of_cleared m d n
          (nextState s resp (attemptPending m resp s.pending)) (by simp [hp]) h1
        have h4 := pollLoop_success_sleeps m d n
          (nextState s resp (attemptPending m resp s.pending)) h1 h2 hprog
        simp at h4
        omega

theorem pollLoop_responses_progress (m : Bool) (d : Nat → DispatchResult) :
    ∀ (n : Nat) (s : PollState),
      s.lastResponses = none →
      (pollLoop m d n s).lastResponses.isSome = true →
      s.dispatches < (pollLoop m d n s).dispatches
  | 0, s, h1, h2 => by
    rw [pollLoop_zero] at h2
    rw [h1] at h2
    simp at h2
  | n + 1, s, h1, h2 => by
    cases hd : d s.dispatches with
    | transportError r =>
      rw [pollLoop_succ_err m d n s r hd] at h2
      simp only [errState_lastResponses] at h2
      rw [h1] at h2
      simp at h2
    | ok resp =>
      cases hp : (attemptPending m resp s.pending).isEmpty with
      | true =>
        rw [pollLoop_succ_break m d n s resp hd hp]
        simp only [breakState_dispatches]
        omega
      | false =>
        rw [pollLoop_succ_cont m d n s resp hd hp]
        have h3 := pollLoop_dispatches_ge m d n
          (nextState s resp (attemptPending m resp s.pending))
        simp at h3
        omega

theorem pollLoop_empty_pending (m : Bool) (d : Nat → DispatchResult) (n : Nat) (s : PollState)
    (resp : Response) (hn : 1 ≤ n) (hpend : s.pending = [])
    (hd : d s.dispatches = DispatchResult.ok resp) :
    pollLoop m d n s = breakState s resp [] := by
  cases n with
  | zero => omega
  | succ k =>
    have hid : attemptPending m resp s.pending = [] := by
      rw [hpend]
      exact attemptPending_nil m resp
    have hp : (attemptPending m resp s.pending).isEmpty = true := by rw [hid]; rfl
    rw [pollLoop_succ_break m d k s resp hd hp, hid]

theorem pollLoop_pending_subset (m : Bool) (d : Nat → DispatchResult) :
    ∀ (n : Nat) (s : PollState), (pollLoop m d n s).pending ⊆ s.pending
  | 0, s => by
    rw [pollLoop_zero]
    exact fun _ h => h
  | n + 1, s => by
    cases hd : d s.dispatches with
    | transportError r =>
      rw [pollLoop_succ_err m d n s r hd]
      simp only [errState_pending]
      exact fun _ h => h
    | ok resp =>
      cases hp : (attemptPending m resp s.pending).isEmpty with
      | true =>
        rw [pollLoop_succ_break m d n s resp hd hp]
        simp only [breakState_pending]
        exact attemptPending_subset m resp s.pending
      | false =>
        rw [pollLoop_succ_cont m d n s resp hd hp]
        intro x hx
        have h5 : x ∈ attemptPending m resp s.pending := by
          have h6 := pollLoop_pending_subset m d n
            (nextState s resp (attemptPending m resp s.pending)) hx
          simpa using h6
        exact attemptPending_subset m resp s.pending h5

theorem pollLoop_all_false (m : Bool) (d : Nat → DispatchResult) :
    ∀ (n : Nat) (s : PollState),
      s.pending.isEmpty = false →
      s.fatal = none →
      (∀ k, s.dispatches ≤ k → ∃ resp, d k = DispatchResult.ok resp ∧
        ∀ c ∈ s.pending, evalCond c resp = false) →
      (pollLoop m d n s).pending = s.pending ∧
      (pollLoop m d n s).dispatches = s.dispatches + n ∧
      (pollLoop m d n s).sleeps = s.sleeps + n ∧
      (pollLoop m d n s).fatal = none
  | 0, s, _, hfat, _ => by
    rw [pollLoop_zero]
    exact ⟨rfl, by omega, by omega, hfat⟩
  | n + 1, s, hne, hfat, hdisp => by
    obtain ⟨resp, hd, hall⟩ := hdisp s.dispatches (Nat.le_refl _)
    have hid : attemptPending m resp s.pending = s.pending :=
      attemptPending_id m resp s.pending hall
    have hp : (attemptPending m resp s.pending).isEmpty = false := by
      rw [hid]; exact hne
    rw [pollLoop_succ_cont m d n s resp hd hp, hid]
    have hdisp2 : ∀ k, (nextState s resp s.pending).dispatches ≤ k →
        ∃ r2, d k = DispatchResult.ok r2 ∧
          ∀ c ∈ (nextState s resp s.pending).pending, evalCond c r2 = false := by
      intro k hk
      simp only [nextState_dispatches] at hk
      simp only [nextState_pending]
      exact hdisp k (by omega)
    have hrec := pollLoop_all_false m d n (nextState s resp s.pending)
      (by simp [hne]) (by simp) hdisp2
    rcases hrec with ⟨r1, r2, r3, r4⟩
    simp only [nextState_pending, nextState_dispatches, nextState_sleeps] at r1 r2 r3
    exact ⟨r1, by omega, by omega, r4⟩

theorem pollLoop_all_complete (d : Nat → DispatchResult) :
    ∀ (n : Nat) (s : PollState) (c : CompiledCondition),
      c ∈ s.pending →
      (pollLoop false d n s).pending = [] →
      ∃ k resp, s.dispatches ≤ k ∧ k < (pollLoop false d n s).dispatches ∧
        d k = DispatchResult.ok resp ∧ evalCond c resp = true
  | 0, s, c, hc, hemp => by
    rw [pollLoop_zero] at hemp
    rw [hemp] at hc
    exact absurd hc (List.not_mem_nil c)
  | n + 1, s, c, hc, hemp => by
    cases hd : d s.dispatches with
    | transportError r =>
      rw [pollLoop_succ_err _ d n s r hd] at hemp
      simp only [errState_pending] at hemp
      rw [hemp] at hc
      exact absurd hc (List.not_mem_nil c)
    | ok resp =>
      cases hev : evalCond c resp with
      | true =>
        refine ⟨s.dispatches, resp, Nat.le_refl _, ?_, hd, hev⟩
        cases hp : (attemptPending false resp s.pending).isEmpty with
        | true =>
          rw [pollLoop_succ_break _ d n s resp hd hp]
          simp only [breakState_dispatches]
          omega
        | false =>
          rw [pollLoop_succ_cont _ d n s resp hd hp]
          have h3 := pollLoop_dispatches_ge false d n
            (nextState s resp (attemptPending false resp s.pending))
          simp at h3
          omega
      | false =>
        have hmem : c ∈ attemptPending false resp s.pending := by
          simp only [attemptPending, Bool.false_eq_true, if_false]
          unfold evalPassAll
          exact List.mem_filter.mpr ⟨hc, by simp [hev]⟩
        have hp : (attemptPending false resp s.pending).isEmpty = false := by
          cases hq : attemptPending false resp s.pending with
          | nil =>
            rw [hq] at hmem
            exact absurd hmem (List.not_mem_nil c)
          | cons a l => rfl
        rw [pollLoop_succ_cont _ d n s resp hd hp] at hemp ⊢
        obtain ⟨k, r2, hk1, hk2, hk3, hk4⟩ := pollLoop_all_complete d n
          (nextState s resp (attemptPending false resp s.pending)) c
          (by simpa using hmem) hemp
        refine ⟨k, r2, ?_, hk2, hk3, hk4⟩
        simp at hk1
        omega

theorem parse_commands_sound (cm : Bool) :
    ∀ (cmds cs ws : List String),
      parse_commands cm cmds = Except.ok (cs, ws) →
      ∀ c ∈ cs, allowedCommand c = true ∧ (cm = true → strStartsWith c "show" = true)
  | [], cs, ws, h => by
    simp only [parse_commands, Except.ok.injEq, Prod.mk.injEq] at h
    intro c hc
    rw [← h.1] at hc
    exact absurd hc (List.not_mem_nil c)
  | item :: rest, cs, ws, h => by
    unfold parse_commands at h
    by_cases ha : allowedCommand item = false
    · rw [if_pos ha] at h
      exact Except.noConfusion h
    · rw [if_neg ha] at h
      cases hr : parse_commands cm rest with
      | error msg =>
        rw [hr] at h
        exact Except.noConfusion h
      | ok pair =>
        obtain ⟨cs0, ws0⟩ := pair
        simp only [hr] at h
        by_cases hcm : (cm && !(strStartsWith item "show")) = true
        · rw [if_pos hcm] at h
          simp only [Except.ok.injEq, Prod.mk.injEq] at h
          intro c hc
          rw [← h.1] at hc
          exact parse_commands_sound cm rest cs0 ws0 hr c hc
        · rw [if_neg hcm] at h
          simp only [Except.ok.injEq, Prod.mk.injEq] at h
          intro c hc
          rw [← h.1] at hc
          rcases List.mem_cons.mp hc with h1 | h1
          · subst h1
            constructor
            · cases hab : allowedCommand c with
              | true => rfl
              | false => exact absurd hab ha
            · intro hcmt
              rw [hcmt] at hcm
              simp at hcm
              exact hcm
          · exact parse_commands_sound cm rest cs0 ws0 hr c h1

theorem parse_commands_error (cm : Bool) :
    ∀ cmds : List String, (∃ c ∈ cmds, allowedCommand c = false) →
      ∃ msg, parse_commands cm cmds = Except.error msg
  | [], h => by
    obtain ⟨c, hc, _⟩ := h
    exact absurd hc (List.not_mem_nil c)
  | item :: rest, h => by
    unfold parse_commands
    by_cases ha : allowedCommand item = false
    · rw [if_pos ha]
      exact ⟨_, rfl⟩
    · rw [if_neg ha]
      have hrest : ∃ c ∈ rest, allowedCommand c = false := by
        obtain ⟨c, hc, hcf⟩ := h
        rcases List.mem_cons.mp hc with h1 | h1
        · rw [h1] at hcf
          exact absurd hcf ha
        · exact ⟨c, h1, hcf⟩
      obtain ⟨msg, hmsg⟩ := parse_commands_error cm rest hrest
      rw [hmsg]
      exact ⟨msg, rfl⟩

theorem compileAll_error : ∀ (ws : List String) (e : String), e ∈ ws →
    (∃ m, compileCondition e = Except.error m) →
    ∃ msg, compileAll ws = Except.error msg
  | [], e, he, _ => absurd he (List.not_mem_nil e)
  | a :: rest, e, he, hm => by
    unfold compileAll
    rcases List.mem_cons.mp he with h1 | h1
    · obtain ⟨m, hm2⟩ := hm
      rw [h1] at hm2
      rw [hm2]
      exact ⟨m, rfl⟩
    · cases hca : compileCondition a with
      | error m => exact ⟨m, rfl⟩
      | ok c =>
        obtain ⟨msg, hmsg⟩ := compileAll_error rest e h1 hm
        rw [hmsg]
        exact ⟨msg, rfl⟩

theorem compileCondition_raw (e : String) (c : CompiledCondition)
    (h : compileCondition e = Except.ok c) : c.raw = e := by
  unfold compileCondition at h
  split at h
  · split at h
    · exact Except.noConfusion h
    · split at h
      · injection h with h2
        rw [← h2]
      · exact Except.noConfusion h
  · exact Except.noConfusion h

theorem compileAll_map_raw : ∀ (ws : List String) (conds : List CompiledCondition),
    compileAll ws = Except.ok conds → conds.map (fun c => c.raw) = ws
  | [], conds, h => by
    simp only [compileAll, Except.ok.injEq] at h
    rw [← h]
    rfl
  | e :: rest, conds, h => by
    unfold compileAll at h
    cases hce : compileCondition e with
    | error m =>
      rw [hce] at h
      exact Except.noConfusion h
    | ok c =>
      rw [hce] at h
      cases hcr : compileAll rest with
      | error m =>
        rw [hcr] at h
        exact Except.noConfusion h
      | ok cs =>
        rw [hcr] at h
        simp only [Except.ok.injEq] at h
        rw [← h]
        simp only [List.map_cons]
        rw [compileAll_map_raw rest cs hcr, compileCondition_raw e c hce]

theorem finishRun_outcome_fatal (ws cs : List String) (s : PollState) (r : String)
    (hf : s.fatal = some r) :
    (finishRun ws cs s).outcome = ModuleOutcome.failed r := by
  simp [finishRun, hf]

theorem finishRun_outcome_pending (ws cs : List String) (s : PollState)
    (hf : s.fatal = none) (hp : s.pending.isEmpty = false) :
    (finishRun ws cs s).outcome = ModuleOutcome.failedConditions
      "One or more conditional statements have not been satisfied"
      (s.pending.map (fun c => c.raw)) := by
  simp [finishRun, hf, hp]

theorem finishRun_outcome_success (ws cs : List String) (s : PollState) (resp : Response)
    (hf : s.fatal = none) (hp : s.pending.isEmpty = true)
    (hr : s.lastResponses = some resp) :
    (finishRun ws cs s).outcome = ModuleOutcome.success resp (to_lines resp) ws := by
  simp [finishRun, hf, hp, hr]

theorem finishRun_outcome_nameError (ws cs : List String) (s : PollState)
    (hf : s.fatal = none) (hp : s.pending.isEmpty = true)
    (hr : s.lastResponses = none) :
    (finishRun ws cs s).outcome = ModuleOutcome.nameError := by
  simp [finishRun, hf, hp, hr]

@[simp] theorem finishRun_dispatches (ws cs : List String) (s : PollState) :
    (finishRun ws cs s).dispatches = s.dispatches := by
  unfold finishRun
  cases hf : s.fatal with
  | some r => rfl
  | none =>
    cases hp : s.pending.isEmpty with
    | true =>
      cases hr : s.lastResponses with
      | some resp => simp [hp, hr]
      | none => simp [hp, hr]
    | false => simp [hp]

@[simp] theorem finishRun_sleeps (ws cs : List String) (s : PollState) :
    (finishRun ws cs s).sleeps = s.sleeps := by
  unfold finishRun
  cases hf : s.fatal with
  | some r => rfl
  | none =>
    cases hp : s.pending.isEmpty with
    | true =>
      cases hr : s.lastResponses with
      | some resp => simp [hp, hr]
      | none => simp [hp, hr]
    | false => simp [hp]

@[simp] theorem finishRun_pending (ws cs : List String) (s : PollState) :
    (finishRun ws cs s).pending = s.pending := by
  unfold finishRun
  cases hf : s.fatal with
  | some r => rfl
  | none =>
    cases hp : s.pending.isEmpty with
    | true =>
      cases hr : s.lastResponses with
      | some resp => simp [hp, hr]
      | none => simp [hp, hr]
    | false => simp [hp]

@[simp] theorem finishRun_batch (ws cs : List String) (s : PollState) :
    (finishRun ws cs s).batch = if s.dispatches = 0 then none else some cs := by
  unfold finishRun
  cases hf : s.fatal with
  | some r => rfl
  | none =>
    cases hp : s.pending.isEmpty with
    | true =>
      cases hr : s.lastResponses with
      | some resp => simp [hp, hr]
      | none => simp [hp, hr]
    | false => simp [hp]

theorem finishRun_failedConditions_inv (ws cs : List String) (s : PollState)
    (msg : String) (fcs : List String)
    (h : (finishRun ws cs s).outcome = ModuleOutcome.failedConditions msg fcs) :
    s.fatal = none ∧ s.pending.isEmpty = false ∧
    msg = "One or more conditional statements have not been satisfied" ∧
    fcs = s.pending.map (fun c => c.raw) := by
  cases hf : s.fatal with
  | some r =>
    rw [finishRun_outcome_fatal ws cs s r hf] at h
    exact ModuleOutcome.noConfusion h
  | none =>
    cases hp : s.pending.isEmpty with
    | true =>
      cases hr : s.lastResponses with
      | some resp =>
        rw [finishRun_outcome_success ws cs s resp hf hp hr] at h
        exact ModuleOutcome.noConfusion h
      | none =>
        rw [finishRun_outcome_nameError ws cs s hf hp hr] at h
        exact ModuleOutcome.noConfusion h
    | false =>
      rw [finishRun_outcome_pending ws cs s hf hp] at h
      injection h with h1 h2
      exact ⟨rfl, rfl, h1.symm, h2.symm⟩

theorem finishRun_success_inv (ws cs : List String) (s : PollState)
    (h : isSuccess (finishRun ws cs s).outcome = true) :
    s.fatal = none ∧ s.pending.isEmpty = true ∧ s.lastResponses.isSome = true := by
  cases hf : s.fatal with
  | some r =>
    rw [finishRun_outcome_fatal ws cs s r hf] at h
    exact Bool.noConfusion h
  | none =>
    cases hp : s.pending.isEmpty with
    | true =>
      cases hr : s.lastResponses with
      | some resp =>
        exact ⟨rfl, rfl, rfl⟩
      | none =>
        rw [finishRun_outcome_nameError ws cs s hf hp hr] at h
        exact Bool.noConfusion h
    | false =>
      rw [finishRun_outcome_pending ws cs s hf hp] at h
      exact Bool.noConfusion h

theorem mainRun_eq_parse_error (p : ModuleParams)
    (dispatch : List String → Nat → DispatchResult) (msg : String)
    (hp : parse_commands p.check_mode p.commands = Except.error msg) :
    mainRun p dispatch =
      ({ outcome := ModuleOutcome.failed msg, dispatches := 0, sleeps := 0,
         pending := [], batch := none } : ModuleRun) := by
  simp [mainRun, hp]

theorem mainRun_eq_compile_error (p : ModuleParams)
    (dispatch : List String → Nat → DispatchResult) (cs ws : List String) (msg : String)
    (hp : parse_commands p.check_mode p.commands = Except.ok (cs, ws))
    (hc : compileAll p.wait_for = Except.error msg) :
    mainRun p dispatch =
      ({ outcome := ModuleOutcome.failed msg, dispatches := 0, sleeps := 0,
         pending := [], batch := none } : ModuleRun) := by
  simp [mainRun, hp, hc]

theorem mainRun_eq_of_ok (p : ModuleParams)
    (dispatch : List String → Nat → DispatchResult) (cs ws : List String)
    (conds : List CompiledCondition)
    (hp : parse_commands p.check_mode p.commands = Except.ok (cs, ws))
    (hc : compileAll p.wait_for = Except.ok conds) :
    mainRun p dispatch = finishRun ws cs
      (pollLoop (p.matchPolicy == "any") (dispatch cs) p.retries (initState conds)) := by
  simp [mainRun, hp, hc]

theorem isEmpty_true_iff {α : Type} (l : List α) : l.isEmpty = true ↔ l = [] := by
  cases l <;> simp

theorem ne_nil_of_isEmpty_false {α : Type} (l : List α) (h : l.isEmpty = false) :
    l ≠ [] := by
  cases l with
  | nil => exact absurd h (by simp)
  | cons a t => simp

theorem finishRun_isFailedConditions_inv (ws cs : List String) (s : PollState)
    (h : isFailedConditions (finishRun ws cs s).outcome = true) :
    s.fatal = none ∧ s.pending.isEmpty = false := by
  cases hf : s.fatal with
  | some r =>
    rw [finishRun_outcome_fatal ws cs s r hf] at h
    exact Bool.noConfusion h
  | none =>
    cases hp : s.pending.isEmpty with
    | true =>
      cases hr : s.lastResponses with
      | some resp =>
        rw [finishRun_outcome_success ws cs s resp hf hp hr] at h
        exact Bool.noConfusion h
      | none =>
        rw [finishRun_outcome_nameError ws cs s hf hp hr] at h
        exact Bool.noConfusion h
    | false => exact ⟨rfl, rfl⟩

/-- C1, counterexample: with one never-satisfied condition and retries = 2
the loop dispatches twice and sleeps twice — `time.sleep` runs after the
final exhausted attempt as well, so the sleep count is not
(dispatches − 1). -/
theorem C1_counterexample :
    (mainRun pExhaust dNope).dispatches = 2 ∧
    ¬((mainRun pExhaust dNope).sleeps = (mainRun pExhaust dNope).dispatches - 1) := by
  decide

/-- C1 (amended): on every run that ends in the conditions-unmet failure the
sleep count equals the dispatch count (one sleep after every unsatisfied
attempt, including the final one), and on a first-attempt success the sleep
count is 0. -/
theorem C1_sleep_count (p : ModuleParams)
    (dispatch : List String → Nat → DispatchResult) :
    (isFailedConditions (mainRun p dispatch).outcome = true →
      (mainRun p dispatch).sleeps = (mainRun p dispatch).dispatches) ∧
    (isSuccess (mainRun p dispatch).outcome = true →
      (mainRun p dispatch).dispatches = 1 → (mainRun p dispatch).sleeps = 0) := by
  cases hp : parse_commands p.check_mode p.commands with
  | error msg =>
    rw [mainRun_eq_parse_error p dispatch msg hp]
    refine ⟨fun h => ?_, fun h _ => ?_⟩
    · simp [isFailedConditions] at h
    · simp [isSuccess] at h
  | ok pair =>
    obtain ⟨cs, ws⟩ := pair
    cases hc : compileAll p.wait_for with
    | error msg =>
      rw [mainRun_eq_compile_error p dispatch cs ws msg hp hc]
      refine ⟨fun h => ?_, fun h _ => ?_⟩
      · simp [isFailedConditions] at h
      · simp [isSuccess] at h
    | ok conds =>
      rw [mainRun_eq_of_ok p dispatch cs ws conds hp hc]
      refine ⟨fun h => ?_, fun h hd1 => ?_⟩
      · obtain ⟨hf, hpend⟩ := finishRun_isFailedConditions_inv ws cs _ h
        have h2 := pollLoop_exhaust_sleeps (p.matchPolicy == "any") (dispatch cs)
          p.retries (initState conds) hf hpend
        simp only [initState_dispatches, initState_sleeps] at h2
        simp only [finishRun_sleeps, finishRun_dispatches]
        omega
      · obtain ⟨hf, hpend, hresp⟩ := finishRun_success_inv ws cs _ h
        have hprog := pollLoop_responses_progress (p.matchPolicy == "any") (dispatch cs)
          p.retries (initState conds) (initState_lastResponses conds) hresp
        have h2 := pollLoop_success_sleeps (p.matchPolicy == "any") (dispatch cs)
          p.retries (initState conds) hpend hf hprog
        simp only [initState_dispatches, initState_sleeps] at h2 hprog
        simp only [finishRun_dispatches] at hd1
        simp only [finishRun_sleeps]
        omega

/-- C1, witness: the exhaustion run sleeps as often as it dispatches, and an
empty wait_for run succeeding on the first attempt sleeps zero times. -/
theorem C1_sleep_count_witness :
    (mainRun pExhaust dNope).sleeps = (mainRun pExhaust dNope).dispatches ∧
    (mainRun pNoWait dNope).sleeps = 0 :=
  ⟨(C1_sleep_count pExhaust dNope).1 (by decide),
   (C1_sleep_count pNoWait dNope).2 (by decide) (by decide)⟩

/-- C2, counterexample: with wait_for empty and retries = 0 the loop body
never runs — zero dispatches, not one, and the module then crashes reading
the unbound `responses` variable. -/
theorem C2_counterexample :
    (mainRun pNoWaitZero dNope).dispatches = 0 ∧
    (mainRun pNoWaitZero dNope).outcome = ModuleOutcome.nameError ∧
    ¬((mainRun pNoWaitZero dNope).dispatches = 1) := by
  decide

/-- C2 (amended): when wait_for is empty and retries ≥ 1, exactly one
dispatch occurs regardless of the retry budget, and (absent a transport
error on that dispatch) the poll succeeds, reporting the response. -/
theorem C2_single_dispatch (p : ModuleParams)
    (dispatch : List String → Nat → DispatchResult) (cs ws : List String) (resp : Response)
    (hw : p.wait_for = []) (hr : 1 ≤ p.retries)
    (hp : parse_commands p.check_mode p.commands = Except.ok (cs, ws))
    (hd : dispatch cs 0 = DispatchResult.ok resp) :
    (mainRun p dispatch).dispatches = 1 ∧
    (mainRun p dispatch).outcome = ModuleOutcome.success resp (to_lines resp) ws := by
  have hc : compileAll p.wait_for = Except.ok [] := by rw [hw]; rfl
  rw [mainRun_eq_of_ok p dispatch cs ws [] hp hc]
  have hloop := pollLoop_empty_pending (p.matchPolicy == "any") (dispatch cs) p.retries
    (initState []) resp hr rfl hd
  rw [hloop]
  constructor
  · simp
  · exact finishRun_outcome_success ws cs _ resp rfl rfl rfl

/-- C2, witness: with no wait_for conditions and ten retries the module
dispatches once and succeeds with the response. -/
theorem C2_single_dispatch_witness :
    (mainRun pNoWait dNope).dispatches = 1 ∧
    (mainRun pNoWait dNope).outcome =
      ModuleOutcome.success ["nope"] (to_lines ["nope"]) [] :=
  C2_single_dispatch pNoWait dNope ["show version"] [] ["nope"] rfl (by decide) rfl rfl

/-- C3: a transport error during any dispatch is fatal by default — the loop
returns at once with the error recorded, no further dispatch and no sleep
happens (no implicit retry), and the module run fails with the transport
message. -/
theorem C3_transport_fatal (m : Bool) (d : Nat → DispatchResult) (n : Nat) (s : PollState)
    (r : String) (ws cs : List String) (hn : 1 ≤ n)
    (hd : d s.dispatches = DispatchResult.transportError r) :
    pollLoop m d n s = errState s r ∧
    (finishRun ws cs (pollLoop m d n s)).outcome = ModuleOutcome.failed r := by
  cases n with
  | zero => omega
  | succ k =>
    have h1 := pollLoop_succ_err m d k s r hd
    refine ⟨h1, ?_⟩
    rw [h1]
    exact finishRun_outcome_fatal ws cs _ r (errState_fatal s r)

/-- C3, witness: a failing transport aborts a three-retry poll on the first
attempt with the connection error reported. -/
theorem C3_transport_fatal_witness :
    pollLoop false dErr 3 (initState [condZ]) =
      errState (initState [condZ]) "connection refused" ∧
    (finishRun [] ["show version"] (pollLoop false dErr 3 (initState [condZ]))).outcome =
      ModuleOutcome.failed "connection refused" :=
  C3_transport_fatal false dErr 3 (initState [condZ]) "connection refused" []
    ["show version"] (by decide) rfl

/-- C8: in every module run the number of dispatch calls never exceeds the
retries parameter. -/
theorem C8_dispatch_bound (p : ModuleParams)
    (dispatch : List String → Nat → DispatchResult) :
    (mainRun p dispatch).dispatches ≤ p.retries := by
  cases hp : parse_commands p.check_mode p.commands with
  | error msg =>
    rw [mainRun_eq_parse_error p dispatch msg hp]
    simp
  | ok pair =>
    obtain ⟨cs, ws⟩ := pair
    cases hc : compileAll p.wait_for with
    | error msg =>
      rw [mainRun_eq_compile_error p dispatch cs ws msg hp hc]
      simp
    | ok conds =>
      rw [mainRun_eq_of_ok p dispatch cs ws conds hp hc]
      have h := pollLoop_dispatches_le (p.matchPolicy == "any") (dispatch cs)
        p.retries (initState conds)
      simp only [initState_dispatches] at h
      simp only [finishRun_dispatches]
      omega

/-- C4: an out-of-range response index is downgraded, not propagated — the
evaluator reports IndexOutOfRangeError and the loop sees "condition not
satisfied this attempt"; a poll whose conditions never evaluate true (as with
a permanently out-of-range index) runs through all its retries and then fails
normally with the pending expressions, without crashing. -/
theorem C4_index_downgrade :
    (∀ (c : CompiledCondition) (i : Nat) (resp : Response),
      c.operand = Operand.idx i → resp.length ≤ i →
      evaluate c resp = Except.error (EvalError.indexOutOfRange i) ∧
      evalCond c resp = false) ∧
    (∀ (p : ModuleParams) (dispatch : List String → Nat → DispatchResult)
      (cs ws : List String) (conds : List CompiledCondition),
      parse_commands p.check_mode p.commands = Except.ok (cs, ws) →
      compileAll p.wait_for = Except.ok conds →
      conds.isEmpty = false →
      (∀ k, ∃ resp, dispatch cs k = DispatchResult.ok resp ∧
        ∀ c ∈ conds, evalCond c resp = false) →
      (mainRun p dispatch).dispatches = p.retries ∧
      (mainRun p dispatch).outcome = ModuleOutcome.failedConditions
        "One or more conditional statements have not been satisfied"
        (conds.map (fun c => c.raw))) := by
  constructor
  · intro c i resp hop hlen
    have hnone : resp[i]? = none := List.getElem?_eq_none hlen
    constructor
    · simp [evaluate, hop, hnone]
    · simp [evalCond, evaluate, hop, hnone]
  · intro p dispatch cs ws conds hp hc hne hdisp
    rw [mainRun_eq_of_ok p dispatch cs ws conds hp hc]
    have hall := pollLoop_all_false (p.matchPolicy == "any") (dispatch cs) p.retries
      (initState conds) (by simpa using hne) (by simp)
      (fun k _ => by simpa using hdisp k)
    obtain ⟨r1, r2, r3, r4⟩ := hall
    constructor
    · simp only [finishRun_dispatches]
      simp only [initState_dispatches] at r2
      omega
    · have hpendF : (pollLoop (p.matchPolicy == "any") (dispatch cs) p.retries
          (initState conds)).pending.isEmpty = false := by
        rw [r1]
        simpa using hne
      rw [finishRun_outcome_pending ws cs _ r4 hpendF, r1]
      simp

/-- C4, witness: the condition "result[5] eq \x27x\x27" is out of range for
every two-element response — it evaluates unsatisfied, and a three-retry poll
dispatches three times and fails with that expression reported. -/
theorem C4_index_downgrade_witness :
    (evaluate condIdx5 ["a", "b"] = Except.error (EvalError.indexOutOfRange 5) ∧
      evalCond condIdx5 ["a", "b"] = false) ∧
    (mainRun pIdx5 dPair).dispatches = 3 ∧
    (mainRun pIdx5 dPair).outcome = ModuleOutcome.failedConditions
      "One or more conditional statements have not been satisfied"
      ["result[5] eq \x27x\x27"] :=
  ⟨C4_index_downgrade.1 condIdx5 5 ["a", "b"] rfl (by decide),
   C4_index_downgrade.2 pIdx5 dPair ["show version"] [] [condIdx5] rfl rfl rfl
     (fun k => ⟨["a", "b"], rfl, by decide⟩)⟩

/-- C5: with match policy ANY, the moment any pending condition evaluates
true the whole pending set is cleared and the loop returns immediately after
that attempt — one more dispatch, no sleep, success — whatever the other
conditions (which are not evaluated) would have said. -/
theorem C5_any_first_true (d : Nat → DispatchResult) (n : Nat) (s : PollState)
    (resp : Response) (c : CompiledCondition) (hn : 1 ≤ n)
    (hd : d s.dispatches = DispatchResult.ok resp)
    (hmem : c ∈ s.pending) (hc : evalCond c resp = true) :
    pollLoop true d n s = breakState s resp [] := by
  cases n with
  | zero => omega
  | succ k =>
    have hclear : attemptPending true resp s.pending = [] :=
      evalPassAny_clear (fun c2 => evalCond c2 resp) s.pending hmem hc
    have hp : (attemptPending true resp s.pending).isEmpty = true := by
      rw [hclear]
      rfl
    rw [pollLoop_succ_break true d k s resp hd hp, hclear]

/-- C5, witness: with pending [condZ, condA] and a first response satisfying
condA, the ANY poll exits after one dispatch with an empty pending set and no
sleep. -/
theorem C5_any_first_true_witness :
    pollLoop true dSeq 3 (initState [condZ, condA]) =
      breakState (initState [condZ, condA]) ["a", "x"] [] :=
  C5_any_first_true dSeq 3 (initState [condZ, condA]) ["a", "x"] condA (by decide) rfl
    (by decide) (by decide)

/-- C6: with match policy ALL, a condition that evaluates true is removed by
the attempt pass and never returns — the pending set only ever shrinks — and
the poll reaches an empty pending set only if every condition of the pending
set evaluated true against the response of some attempt (not necessarily the
same one). -/
theorem C6_all_monotonic :
    (∀ (ev : CompiledCondition → Bool) (conds : List CompiledCondition)
      (c : CompiledCondition), ev c = true → c ∉ evalPassAll ev conds) ∧
    (∀ (m : Bool) (d : Nat → DispatchResult) (n : Nat) (s : PollState),
      (pollLoop m d n s).pending ⊆ s.pending) ∧
    (∀ (d : Nat → DispatchResult) (n : Nat) (s : PollState) (c : CompiledCondition),
      c ∈ s.pending → (pollLoop false d n s).pending = [] →
      ∃ k resp, s.dispatches ≤ k ∧ k < (pollLoop false d n s).dispatches ∧
        d k = DispatchResult.ok resp ∧ evalCond c resp = true) :=
  ⟨fun ev conds c hc => evalPassAll_not_mem ev conds c hc,
   fun m d n s => pollLoop_pending_subset m d n s,
   fun d n s c hc he => pollLoop_all_complete d n s c hc he⟩

/-- C6, witness: condA, satisfied by the first response, is removed by the
ALL pass; the two-attempt ALL poll over [condA, condB] empties its pending
set, and condB indeed evaluated true on some dispatched attempt. -/
theorem C6_all_monotonic_witness :
    condA ∉ evalPassAll (fun c => evalCond c ["a", "x"]) [condZ, condA] ∧
    (pollLoop false dSeq 2 (initState [condA, condB])).pending ⊆ [condA, condB] ∧
    ∃ k resp, 0 ≤ k ∧ k < (pollLoop false dSeq 2 (initState [condA, condB])).dispatches ∧
      dSeq k = DispatchResult.ok resp ∧ evalCond condB resp = true :=
  ⟨C6_all_monotonic.1 (fun c => evalCond c ["a", "x"]) [condZ, condA] condA (by decide),
   C6_all_monotonic.2.1 false dSeq 2 (initState [condA, condB]),
   C6_all_monotonic.2.2 dSeq 2 (initState [condA, condB]) condB (by decide) (by decide)⟩

/-- C7: an input whose wait_for contains a malformed expression fails during
compilation, before any device command is dispatched — zero dispatch calls,
zero sleeps (so nothing to retry), and the module fails with a message. -/
theorem C7_malformed_no_dispatch (p : ModuleParams)
    (dispatch : List String → Nat → DispatchResult)
    (h : ∃ e ∈ p.wait_for, ∃ m, compileCondition e = Except.error m) :
    (mainRun p dispatch).dispatches = 0 ∧ (mainRun p dispatch).sleeps = 0 ∧
    isFailed (mainRun p dispatch).outcome = true := by
  obtain ⟨e, he, hm⟩ := h
  obtain ⟨msg, hc⟩ := compileAll_error p.wait_for e he hm
  cases hp : parse_commands p.check_mode p.commands with
  | error msg2 =>
    rw [mainRun_eq_parse_error p dispatch msg2 hp]
    exact ⟨rfl, rfl, rfl⟩
  | ok pair =>
    obtain ⟨cs, ws⟩ := pair
    rw [mainRun_eq_compile_error p dispatch cs ws msg hp hc]
    exact ⟨rfl, rfl, rfl⟩

/-- C7, witness: the malformed expression "result[0] frobnicate \x27x\x27"
makes the module fail with zero dispatches. -/
theorem C7_malformed_no_dispatch_witness :
    (mainRun pMalformed dNope).dispatches = 0 ∧ (mainRun pMalformed dNope).sleeps = 0 ∧
    isFailed (mainRun pMalformed dNope).outcome = true :=
  C7_malformed_no_dispatch pMalformed dNope
    ⟨"result[0] frobnicate \x27x\x27", by decide,
     "malformed expression: result[0] frobnicate \x27x\x27", rfl⟩

/-- C9: every conditions-unmet failure carries the fixed failure message plus
exactly the raw expression strings of the still-pending conditionals — each
of which is one of the original wait_for strings, and the list is non-empty —
and a successful outcome is only ever produced with an empty pending set (no
partial response is reported as success). -/
theorem C9_failure_output :
    (∀ (p : ModuleParams) (dispatch : List String → Nat → DispatchResult)
      (msg : String) (fcs : List String),
      (mainRun p dispatch).outcome = ModuleOutcome.failedConditions msg fcs →
      msg = "One or more conditional statements have not been satisfied" ∧
      fcs = (mainRun p dispatch).pending.map (fun c => c.raw) ∧
      fcs ≠ [] ∧ ∀ e ∈ fcs, e ∈ p.wait_for) ∧
    (∀ (p : ModuleParams) (dispatch : List String → Nat → DispatchResult),
      isSuccess (mainRun p dispatch).outcome = true →
      (mainRun p dispatch).pending = []) := by
  constructor
  · intro p dispatch msg fcs h
    cases hp : parse_commands p.check_mode p.commands with
    | error msg2 =>
      rw [mainRun_eq_parse_error p dispatch msg2 hp] at h
      exact ModuleOutcome.noConfusion h
    | ok pair =>
      obtain ⟨cs, ws⟩ := pair
      cases hc : compileAll p.wait_for with
      | error msg2 =>
        rw [mainRun_eq_compile_error p dispatch cs ws msg2 hp hc] at h
        exact ModuleOutcome.noConfusion h
      | ok conds =>
        rw [mainRun_eq_of_ok p dispatch cs ws conds hp hc] at h ⊢
        obtain ⟨hf, hpend, hmsg, hfcs⟩ := finishRun_failedConditions_inv ws cs _ msg fcs h
        refine ⟨hmsg, ?_, ?_, ?_⟩
        · rw [finishRun_pending]
          exact hfcs
        · intro hnil
          rw [hfcs] at hnil
          have hnil2 := List.map_eq_nil_iff.mp hnil
          exact ne_nil_of_isEmpty_false _ hpend hnil2
        · intro e he
          rw [hfcs] at he
          obtain ⟨c2, hc2, hraw⟩ := List.mem_map.mp he
          have hc3 : c2 ∈ conds := by
            have h4 := pollLoop_pending_subset (p.matchPolicy == "any") (dispatch cs)
              p.retries (initState conds) hc2
            simpa using h4
          rw [← compileAll_map_raw p.wait_for conds hc, ← hraw]
          exact List.mem_map_of_mem (fun c3 => c3.raw) hc3
  · intro p dispatch h
    cases hp : parse_commands p.check_mode p.commands with
    | error msg2 =>
      rw [mainRun_eq_parse_error p dispatch msg2 hp]
    | ok pair =>
      obtain ⟨cs, ws⟩ := pair
      cases hc : compileAll p.wait_for with
      | error msg2 =>
        rw [mainRun_eq_compile_error p dispatch cs ws msg2 hp hc]
      | ok conds =>
        rw [mainRun_eq_of_ok p dispatch cs ws conds hp hc] at h ⊢
        obtain ⟨hf, hpend, hresp⟩ := finishRun_success_inv ws cs _ h
        rw [finishRun_pending]
        exact (isEmpty_true_iff _).mp hpend

/-- C9, witness: the exhausted never-matching run reports the fixed message
with exactly its pending raw expression, which is one of the wait_for
strings. -/
theorem C9_failure_output_witness :
    "One or more conditional statements have not been satisfied" =
      "One or more conditional statements have not been satisfied" ∧
    ["result[0] eq \x27x\x27"] = (mainRun pExhaust dNope).pending.map (fun c => c.raw) ∧
    ["result[0] eq \x27x\x27"] ≠ [] ∧
    ∀ e ∈ ["result[0] eq \x27x\x27"], e ∈ pExhaust.wait_for :=
  C9_failure_output.1 pExhaust dNope
    "One or more conditional statements have not been satisfied"
    ["result[0] eq \x27x\x27"] (by decide)

/-- C10: a command outside the allow-list makes the module fail before any
dispatch (zero dispatch calls), and every batch ever handed to the transport
consists of commands with an allowed verb — all of them starting with
"show" when in check mode. -/
theorem C10_command_allowlist :
    (∀ (p : ModuleParams) (dispatch : List String → Nat → DispatchResult),
      (∃ c ∈ p.commands, allowedCommand c = false) →
      (mainRun p dispatch).dispatches = 0 ∧ isFailed (mainRun p dispatch).outcome = true) ∧
    (∀ (p : ModuleParams) (dispatch : List String → Nat → DispatchResult)
      (cs : List String),
      (mainRun p dispatch).batch = some cs →
      ∀ c ∈ cs, allowedCommand c = true ∧
        (p.check_mode = true → strStartsWith c "show" = true)) := by
  constructor
  · intro p dispatch h
    obtain ⟨msg, hmsg⟩ := parse_commands_error p.check_mode p.commands h
    rw [mainRun_eq_parse_error p dispatch msg hmsg]
    exact ⟨rfl, rfl⟩
  · intro p dispatch cs h
    cases hp : parse_commands p.check_mode p.commands with
    | error msg =>
      rw [mainRun_eq_parse_error p dispatch msg hp] at h
      exact Option.noConfusion h
    | ok pair =>
      obtain ⟨csP, ws⟩ := pair
      cases hc : compileAll p.wait_for with
      | error msg =>
        rw [mainRun_eq_compile_error p dispatch csP ws msg hp hc] at h
        exact Option.noConfusion h
      | ok conds =>
        rw [mainRun_eq_of_ok p dispatch csP ws conds hp hc] at h
        rw [finishRun_batch] at h
        by_cases hz : (pollLoop (p.matchPolicy == "any") (dispatch csP) p.retries
          (initState conds)).dispatches = 0
        · rw [if_pos hz] at h
          exact Option.noConfusion h
        · rw [if_neg hz] at h
          injection h with h2
          rw [← h2]
          exact parse_commands_sound p.check_mode p.commands csP ws hp

/-- C10, witness: the command "reboot now" is rejected before any dispatch,
and the batch actually dispatched by the never-matching run consists of
allowed commands. -/
theorem C10_command_allowlist_witness :
    ((mainRun pBad dNope).dispatches = 0 ∧ isFailed (mainRun pBad dNope).outcome = true) ∧
    ∀ c ∈ ["show version"], allowedCommand c = true ∧
      (pExhaust.check_mode = true → strStartsWith c "show" = true) :=
  ⟨C10_command_allowlist.1 pBad dNope ⟨"reboot now", by decide, by decide⟩,
   C10_command_allowlist.2 pExhaust dNope ["show version"] (by decide)⟩
